import Mathlib

/-!
Shallow embedding of `src/app/main.py` of the `rag` repository: a
retrieval-augmented-generation pipeline (load web documents, split them
into overlapping chunks, index them in a vector store, answer a query by
retrieving context and invoking a generative model).

Python exceptions are modelled as `Except Err` values; the external
collaborators (web fetch, embedding service, prompt template, generative
model, output parsing) are oracle functions passed in explicitly, so each
theorem quantifies over every possible behaviour of those services.
-/

/-- Python exceptions are carried as their message string. -/
abbrev Err := String

/-- A LangChain `Document`: page content plus its source identity. -/
structure Document where
  pageContent : String
  source : String
deriving DecidableEq, Repr

/-- Line 18 of `src/app/main.py`. -/
def DEFAULT_MODEL : String := "gpt-4o"

/-- Line 19 of `src/app/main.py`. -/
def DEFAULT_CHUNK_SIZE : Nat := 1000

/-- Line 20 of `src/app/main.py`. -/
def DEFAULT_CHUNK_OVERLAP : Nat := 200

/-- Line 21 of `src/app/main.py`. -/
def DEFAULT_PROMPT_TEMPLATE : String := "rlm/rag-prompt"

/-- The process environment after `load_dotenv`: variable name to value. -/
abbrev Env : Type := String → Option String

/-- Lines 23-40 (`configurar_ambiente`): reads `OPENAI_API_KEY`; the Python test
`if not api_key` is true both when the variable is absent (`None`) and when
it is the empty string, and in both cases a `ValueError` is raised.
Otherwise the key is (redundantly) written back into the environment. -/
def configurar_ambiente (env : Env) : Except Err Env :=
  match env "OPENAI_API_KEY" with
  | none => .error "OPENAI_API_KEY não encontrada nas variáveis de ambiente"
  | some k =>
    if k = "" then .error "OPENAI_API_KEY não encontrada nas variáveis de ambiente"
    else .ok (fun name => if name = "OPENAI_API_KEY" then some k else env name)

/-- The external web loader collaborator (`WebBaseLoader.load`). Lines 53-61
construct the loader with only `web_paths` and `bs_kwargs`, so it runs in its
default configuration: the sources are fetched and parsed one by one in a
single attempt each, and the first fetch/parse failure raises out of `load`
(no continue-on-failure option is set in `src`). `fetch` is the per-source
fetch-and-parse oracle. -/
def WebBaseLoader_load (fetch : String → Except Err Document) :
    List String → Except Err (List Document)
  | [] => .ok []
  | u :: us => do
    let d ← fetch u
    let ds ← WebBaseLoader_load fetch us
    pure (d :: ds)

/-- Lines 42-67 (`carregar_documentos`): the whole `loader.load()` call is
wrapped in one `try`; on success its documents are returned, and any raised
exception is caught, logged with `print`, and replaced by the empty list. -/
def carregar_documentos (fetch : String → Except Err Document)
    (urls : List String) : List Document :=
  match WebBaseLoader_load fetch urls with
  | .ok docs => docs
  | .error _ => []

/-- Modelled from the spec: the recursive character splitter that
`dividir_documentos` delegates to is an external dependency whose code is not
under `src/`. Spec 4.2: a text of length at most `chunkSize` stays whole;
longer texts are cut into bounded-size overlapping segments, consecutive
segment starts lying `chunkSize - overlap` apart (the boundary search is
modelled at its finest separator level, the hard character cut, which is the
only level the claims under verification depend on). Requires
`overlap < chunkSize` so that the cut advances. -/
def splitChars (chunkSize step : Nat) (h : 0 < step) (s : List Char) :
    List (List Char) :=
  if s.length ≤ chunkSize then [s]
  else s.take chunkSize :: splitChars chunkSize step h (s.drop step)
termination_by s.length
decreasing_by
  simp only [List.length_drop]
  omega

/-- Modelled from the spec: splitting one source document (spec 4.2). Empty
raw text yields zero segments; otherwise the text is cut by `splitChars` and
each piece becomes a segment keeping the source identity of the parent, the
position in the returned list being its sequence index. -/
def splitDocument (chunkSize overlap : Nat) (h : overlap < chunkSize)
    (d : Document) : List Document :=
  if d.pageContent.isEmpty then []
  else (splitChars chunkSize (chunkSize - overlap) (by omega) d.pageContent.toList).map
    (fun cs => { pageContent := String.mk cs, source := d.source })

/-- Lines 69-88 (`dividir_documentos`) together with the configuration
validation of the splitter, modelled from the spec (4.2): an overlap that is
not smaller than the chunk size is a `ConfigurationError` raised before any
document is touched; otherwise every document is split and the segment lists
are concatenated in document order. -/
def dividir_documentos (documentos : List Document)
    (tamanho_chunk : Nat) (sobreposicao : Nat) : Except Err (List Document) :=
  if h : tamanho_chunk ≤ sobreposicao then
    .error "ConfigurationError: chunk overlap must be smaller than chunk size"
  else
    .ok (documentos.flatMap (splitDocument tamanho_chunk sobreposicao (by omega)))

/-- Lines 110-120 (`format_docs`): joins the page contents of the documents
with a double line break, exactly the Python `"\n\n".join(...)`. -/
def format_docs (docs : List Document) : String :=
  String.intercalate "\n\n" (docs.map (fun d => d.pageContent))

/-- The vector store: (segment, embedding vector) pairs in insertion order.
Embedding vectors are modelled as integer coordinate lists (exact stand-ins
for the numeric vectors of the embedding space). -/
structure VectorIndex where
  entries : List (Document × List Int)
deriving DecidableEq, Repr

/-- An embedding-service oracle: text to vector, or a service failure. -/
abbrev Embedder := String → Except Err (List Int)

/-- Traverses the embedding service over the documents, keeping insertion
order; the first failure aborts the traversal (all-or-nothing, spec 4.3). -/
def embedAll (embed : Embedder) : List Document → Except Err (List (Document × List Int))
  | [] => .ok []
  | d :: ds => do
    let v ← embed d.pageContent
    let rest ← embedAll embed ds
    pure ((d, v) :: rest)

/-- Modelled from the spec: the external vector store build
(`Chroma.from_documents`, spec 4.3) embeds every segment and stores the
(segment, vector) pairs; an embedding-service failure is surfaced and no
partial index is produced. -/
def Chroma_from_documents (embed : Embedder) (docs : List Document) :
    Except Err VectorIndex :=
  (embedAll embed docs).map VectorIndex.mk

/-- Lines 90-108 (`criar_vectorstore`): calls `Chroma.from_documents`; any
exception is caught, logged with `print`, and re-raised unchanged by the bare
`raise` statement. -/
def criar_vectorstore (embed : Embedder) (documentos : List Document) :
    Except Err VectorIndex :=
  match Chroma_from_documents embed documentos with
  | .ok vs => .ok vs
  | .error e => .error e

/-- Inner product of two integer vectors, the similarity score of the model. -/
def dot : List Int → List Int → Int
  | a :: as, b :: bs => a * b + dot as bs
  | _, _ => 0

/-- Retrieval ranking: candidate `a` (an (insertion index, segment, score)
triple) precedes candidate `b` when its score is higher, or the scores tie
and `a` was inserted first (spec 3: descending similarity, ties broken by
original insertion order). -/
def rankLE (a b : Nat × Document × Int) : Bool :=
  b.2.2 < a.2.2 || (a.2.2 == b.2.2 && a.1 ≤ b.1)

/-- The ranking as a decidable relation, for sorting. -/
def rankRel (a b : Nat × Document × Int) : Prop := rankLE a b = true

instance : DecidableRel rankRel := fun a b => Bool.decEq (rankLE a b) true

instance : IsTotal (Nat × Document × Int) rankRel := by
  constructor
  intro a b
  simp only [rankRel, rankLE, Bool.or_eq_true, decide_eq_true_eq, Bool.and_eq_true,
    beq_iff_eq]
  omega

instance : IsTrans (Nat × Document × Int) rankRel := by
  constructor
  intro a b c hab hbc
  simp only [rankRel, rankLE, Bool.or_eq_true, decide_eq_true_eq, Bool.and_eq_true,
    beq_iff_eq] at hab hbc ⊢
  omega

/-- Modelled from the spec: query-time retrieval (spec 4.3). The query text
is embedded once; every stored segment is scored against the query vector;
the candidates are sorted by descending score with insertion-order
tie-breaking, and the first `k` (segment, score) pairs are returned. -/
def retrieve (idx : VectorIndex) (embed : Embedder) (query : String) (k : Nat) :
    Except Err (List (Document × Int)) :=
  match embed query with
  | .error e => .error e
  | .ok qv =>
    let scored := idx.entries.enum.map (fun p => (p.1, p.2.1, dot p.2.2 qv))
    let ranked := List.insertionSort rankRel scored
    .ok ((ranked.take k).map (fun t => (t.2.1, t.2.2)))

/-- The structured prompt input assembled by the two-branch map: the
formatted context and the question. -/
structure PromptInput where
  context : String
  question : String
deriving DecidableEq, Repr

/-- Lines 135-139: the two-branch head of the chain. Branch A sends the
question through the retriever and `format_docs`; Branch B is
`RunnablePassthrough()`, binding the raw question itself. -/
def chainInput (retriever : String → Except Err (List Document)) (q : String) :
    Except Err PromptInput :=
  match retriever q with
  | .error e => .error e
  | .ok docs => .ok { context := format_docs docs, question := q }

/-- Lines 122-143 (`criar_rag_chain`) applied to a question: the LangChain
composition evaluates the two input branches, renders the prompt template,
invokes the model, and decodes its output to a string; each stage is an
oracle that may fail, and the composition has no handler, so the exception of the first
failing stage propagates to the caller of `invoke`. -/
def criar_rag_chain (retriever : String → Except Err (List Document))
    (promptTemplate : PromptInput → Except Err String)
    (llm : String → Except Err String)
    (parseOutput : String → Except Err String)
    (q : String) : Except Err String :=
  match chainInput retriever q with
  | .error e => .error e
  | .ok input =>
    match promptTemplate input with
    | .error e => .error e
    | .ok rendered =>
      match llm rendered with
      | .error e => .error e
      | .ok resp => parseOutput resp

/-- The external collaborators `main` depends on. -/
structure Oracles where
  fetch : String → Except Err Document
  embed : Embedder
  promptTemplate : PromptInput → Except Err String
  llm : String → Except Err String
  parseOutput : String → Except Err String

/-- The observable outcome of `main`: the caught exception printed by the
handler at lines 172-173, the early return at lines 155-157, or the printed
answer. -/
inductive MainResult where
  | errorCaught (e : Err)
  | noDocuments
  | answered (resposta : String)
deriving DecidableEq, Repr

/-- Line 152: the fixed source location list. -/
def mainUrls : List String := ["https://lilianweng.github.io/posts/2023-06-23-agent"]

namespace App

/-- Lines 145-173 (`main`): configure the environment, load the documents,
split them with the default chunk parameters, build the vector store, build
the chain over the retriever of the store (default top-k of 4), and invoke it on
the example query; any exception raised by a step is caught by the
surrounding handler and printed. -/
def main (env : Env) (o : Oracles) : MainResult :=
  match configurar_ambiente env with
  | .error e => .errorCaught e
  | .ok _ =>
    let documentos := carregar_documentos o.fetch mainUrls
    if documentos.isEmpty then .noDocuments
    else
      match dividir_documentos documentos DEFAULT_CHUNK_SIZE DEFAULT_CHUNK_OVERLAP with
      | .error e => .errorCaught e
      | .ok chunks =>
        match criar_vectorstore o.embed chunks with
        | .error e => .errorCaught e
        | .ok vectorstore =>
          let retriever := fun q =>
            (retrieve vectorstore o.embed q 4).map (List.map Prod.fst)
          match criar_rag_chain retriever o.promptTemplate o.llm o.parseOutput
              "O que é decomposição de tarefas?" with
          | .error e => .errorCaught e
          | .ok resposta => .answered resposta

end App

/-- Stated from the words of the spec (3, PromptContext): the context text
as an explicit recursion, the texts of the retrieved segments in retrieval
order with a blank line between consecutive ones. Kept separate from
`format_docs` so the two can be compared. -/
def contextTextSpec : List Document → String
  | [] => ""
  | [d] => d.pageContent
  | d :: rest => d.pageContent ++ "\n\n" ++ contextTextSpec rest

/-- The tail of a separator-joined text: every element preceded by the
separator. -/
def sepJoin (s : String) : List String → String
  | [] => ""
  | a :: as => s ++ a ++ sepJoin s as

theorem intercalate_go_eq (s : String) (l : List String) (acc : String) :
    String.intercalate.go acc s l = acc ++ sepJoin s l := by
  induction l generalizing acc with
  | nil => simp [String.intercalate.go, sepJoin]
  | cons a as ih => simp [String.intercalate.go, sepJoin, ih, String.append_assoc]

theorem contextTextSpec_cons (d : Document) (rest : List Document) :
    contextTextSpec (d :: rest) =
      d.pageContent ++ sepJoin "\n\n" (rest.map (fun x => x.pageContent)) := by
  induction rest generalizing d with
  | nil => simp [contextTextSpec, sepJoin]
  | cons e tail ih =>
    simp only [contextTextSpec, List.map_cons, sepJoin, String.append_assoc, ih e]

/-- C5: for every ordered list of retrieved segments, the context text
produced by `format_docs` equals the concatenation of the texts of the
segments in retrieval order, consecutive texts separated by a blank line
(the recursion `contextTextSpec` stated from the spec). -/
theorem format_docs_eq_contextTextSpec (docs : List Document) :
    format_docs docs = contextTextSpec docs := by
  cases docs with
  | nil => rfl
  | cons d rest =>
    rw [contextTextSpec_cons]
    simp only [format_docs, List.map_cons, String.intercalate, intercalate_go_eq]

/-- C8: Branch B of the two-branch chain head is the identity: whenever the
chain input is assembled, the value bound into the question slot is the raw
input question string, unmodified. -/
theorem chainInput_question_passthrough
    (retriever : String → Except Err (List Document)) (q : String)
    (input : PromptInput) (h : chainInput retriever q = .ok input) :
    input.question = q := by
  unfold chainInput at h
  cases hr : retriever q with
  | error e => rw [hr] at h; cases h
  | ok docs =>
    rw [hr] at h
    cases h
    rfl

/-- A retriever that finds nothing, used to instantiate the C8 theorem. -/
def emptyRetriever : String → Except Err (List Document) := fun _ => .ok []

theorem chainInput_question_passthrough_witness :
    chainInput emptyRetriever "O que é decomposição de tarefas?" =
      .ok { context := "", question := "O que é decomposição de tarefas?" } ∧
    (PromptInput.mk "" "O que é decomposição de tarefas?").question =
      "O que é decomposição de tarefas?" := by
  refine ⟨rfl, ?_⟩
  exact chainInput_question_passthrough emptyRetriever
    "O que é decomposição de tarefas?"
    { context := "", question := "O que é decomposição de tarefas?" } rfl

/-- C2: for every chunk size and overlap with overlap at least the chunk
size, `dividir_documentos` fails with the ConfigurationError; no segment
list is returned. -/
theorem dividir_documentos_config_error (documentos : List Document)
    (tamanho_chunk sobreposicao : Nat) (h : tamanho_chunk ≤ sobreposicao) :
    dividir_documentos documentos tamanho_chunk sobreposicao =
      .error "ConfigurationError: chunk overlap must be smaller than chunk size" := by
  simp [dividir_documentos, h]

theorem dividir_documentos_config_error_witness :
    1000 ≤ 1000 ∧
    dividir_documentos [{ pageContent := "abc", source := "u" }] 1000 1000 =
      .error "ConfigurationError: chunk overlap must be smaller than chunk size" :=
  ⟨by decide,
    dividir_documentos_config_error [{ pageContent := "abc", source := "u" }]
      1000 1000 (by decide)⟩

/-- C6 counterexample: the empty document has length at most the chunk size,
yet splitting yields zero segments (spec 4.2, empty raw text), not one
segment equal to the original text with sequence index 0. -/
theorem dividir_documentos_empty_doc_cex :
    dividir_documentos [{ pageContent := "", source := "u" }] 5 2 = .ok [] ∧
    dividir_documentos [{ pageContent := "", source := "u" }] 5 2 ≠
      .ok [{ pageContent := "", source := "u" }] := by
  refine ⟨rfl, ?_⟩
  intro h
  have h0 : dividir_documentos [{ pageContent := "", source := "u" }] 5 2 =
      .ok ([] : List Document) := rfl
  rw [h0] at h
  simp at h

/-- C6 (amended): for every document whose text is nonempty and has length
at most the chunk size, splitting with a valid overlap yields exactly one
segment equal to the original document, at position 0 of the result. -/
theorem dividir_documentos_short_doc (d : Document) (c o : Nat)
    (h1 : o < c) (h2 : d.pageContent ≠ "") (h3 : d.pageContent.length ≤ c) :
    dividir_documentos [d] c o = .ok [d] := by
  have hc : ¬ c ≤ o := by omega
  have hne : d.pageContent.isEmpty = false := by
    rw [← Bool.not_eq_true, String.isEmpty_iff]
    exact h2
  have hlen : d.pageContent.toList.length ≤ c := h3
  simp only [dividir_documentos, dif_neg hc, List.flatMap_cons, List.flatMap_nil,
    List.append_nil]
  rw [splitDocument, hne]
  simp only [Bool.false_eq_true, if_false]
  rw [splitChars, if_pos hlen]
  simp only [List.map_cons, List.map_nil]
  congr 1

theorem dividir_documentos_short_doc_witness :
    (2 < 5 ∧ ("abc" : String) ≠ "" ∧ ("abc" : String).length ≤ 5) ∧
    dividir_documentos [{ pageContent := "abc", source := "u" }] 5 2 =
      .ok [{ pageContent := "abc", source := "u" }] :=
  ⟨⟨by decide, by decide, by decide⟩,
    dividir_documentos_short_doc { pageContent := "abc", source := "u" } 5 2
      (by decide) (by decide) (by decide)⟩

/-- C4: whenever the vector store build fails (the embedding service failed),
`criar_vectorstore` fails with that same error, unmodified, with no retry and
no partial index. -/
theorem criar_vectorstore_propagates (embed : Embedder)
    (documentos : List Document) (e : Err)
    (h : Chroma_from_documents embed documentos = .error e) :
    criar_vectorstore embed documentos = .error e := by
  unfold criar_vectorstore
  rw [h]

/-- An embedding service that is down, used to instantiate the C4 theorem. -/
def embedFail : Embedder := fun _ => .error "EmbeddingServiceError: service unavailable"

theorem criar_vectorstore_propagates_witness :
    Chroma_from_documents embedFail [{ pageContent := "abc", source := "u" }] =
      .error "EmbeddingServiceError: service unavailable" ∧
    criar_vectorstore embedFail [{ pageContent := "abc", source := "u" }] =
      .error "EmbeddingServiceError: service unavailable" :=
  ⟨rfl, criar_vectorstore_propagates embedFail
    [{ pageContent := "abc", source := "u" }]
    "EmbeddingServiceError: service unavailable" rfl⟩

/-- A fetch oracle with one failing and one succeeding source, used against
claim C1. -/
def fetchOneBad : String → Except Err Document := fun u =>
  if u = "https://good.example" then
    .ok { pageContent := "conteúdo", source := "https://good.example" }
  else .error "requests.exceptions.ConnectionError"

/-- C1 counterexample: with one failing source and one succeeding source,
`carregar_documentos` returns the empty list, not the documents of the
sources that succeeded. -/
theorem carregar_documentos_not_per_source_cex :
    carregar_documentos fetchOneBad
      ["https://bad.example", "https://good.example"] = [] ∧
    carregar_documentos fetchOneBad
      ["https://bad.example", "https://good.example"] ≠
      [{ pageContent := "conteúdo", source := "https://good.example" }] := by
  refine ⟨rfl, ?_⟩
  decide

/-- C1 (amended): a loading failure is non-fatal to the caller but not
per-source: when the load raises, `carregar_documentos` catches the error
and returns the empty list, discarding the sources that succeeded; the
loaded documents are returned only when the whole load succeeds. -/
theorem carregar_documentos_absorbs_failure
    (fetch : String → Except Err Document) (urls : List String) :
    (∀ e, WebBaseLoader_load fetch urls = .error e →
      carregar_documentos fetch urls = []) ∧
    (∀ ds, WebBaseLoader_load fetch urls = .ok ds →
      carregar_documentos fetch urls = ds) := by
  constructor
  · intro e h
    unfold carregar_documentos
    rw [h]
  · intro ds h
    unfold carregar_documentos
    rw [h]

theorem carregar_documentos_absorbs_failure_witness :
    WebBaseLoader_load fetchOneBad ["https://bad.example"] =
      .error "requests.exceptions.ConnectionError" ∧
    carregar_documentos fetchOneBad ["https://bad.example"] = [] :=
  ⟨rfl, (carregar_documentos_absorbs_failure fetchOneBad ["https://bad.example"]).1
    "requests.exceptions.ConnectionError" rfl⟩

theorem WebBaseLoader_load_error_of_mem (fetch : String → Except Err Document)
    {urls : List String} {u : String} {e : Err}
    (hu : u ∈ urls) (hf : fetch u = .error e) :
    ∃ e2, WebBaseLoader_load fetch urls = .error e2 := by
  induction urls with
  | nil => cases hu
  | cons v vs ih =>
    cases hu with
    | head => exact ⟨e, by simp only [WebBaseLoader_load, hf]; rfl⟩
    | tail _ hmem =>
      cases hv : fetch v with
      | error e3 => exact ⟨e3, by simp only [WebBaseLoader_load, hv]; rfl⟩
      | ok d =>
        obtain ⟨e2, hload⟩ := ih hmem
        exact ⟨e2, by simp only [WebBaseLoader_load, hv, hload]; rfl⟩

/-- C10: `carregar_documentos` absorbs every loading exception into the
empty list (its result is always a plain list, never a propagated error),
and the failure of any single member of the URL batch makes the whole call
return the empty list rather than partial results. -/
theorem carregar_documentos_never_propagates
    (fetch : String → Except Err Document) (urls : List String) :
    (∀ e, WebBaseLoader_load fetch urls = .error e →
      carregar_documentos fetch urls = []) ∧
    (∀ u e, u ∈ urls → fetch u = .error e →
      carregar_documentos fetch urls = []) := by
  constructor
  · intro e h
    unfold carregar_documentos
    rw [h]
  · intro u e hu hf
    obtain ⟨e2, h⟩ := WebBaseLoader_load_error_of_mem fetch hu hf
    unfold carregar_documentos
    rw [h]

/-- A fetch oracle whose connections always time out, used to instantiate
the C10 theorem. -/
def fetchDown : String → Except Err Document :=
  fun _ => .error "HTTPSConnectionPool: connection timed out"

theorem carregar_documentos_never_propagates_witness :
    "https://a.example" ∈ ["https://a.example", "https://b.example"] ∧
    fetchDown "https://a.example" =
      .error "HTTPSConnectionPool: connection timed out" ∧
    carregar_documentos fetchDown
      ["https://a.example", "https://b.example"] = [] :=
  ⟨by decide, rfl,
    (carregar_documentos_never_propagates fetchDown
      ["https://a.example", "https://b.example"]).2 "https://a.example"
      "HTTPSConnectionPool: connection timed out" (by decide) rfl⟩

/-- C3: every stage failure aborts the synthesis pipeline for that query and
surfaces the error of the failing stage to the caller, and an answer is
produced only when every stage (retrieval, prompt rendering, generation,
decoding) succeeded — no partial or best-effort answer exists. -/
theorem criar_rag_chain_aborts_on_failure
    (retriever : String → Except Err (List Document))
    (promptTemplate : PromptInput → Except Err String)
    (llm : String → Except Err String)
    (parseOutput : String → Except Err String) (q : String) :
    (∀ e, retriever q = .error e →
      criar_rag_chain retriever promptTemplate llm parseOutput q = .error e) ∧
    (∀ docs e, retriever q = .ok docs →
      promptTemplate { context := format_docs docs, question := q } = .error e →
      criar_rag_chain retriever promptTemplate llm parseOutput q = .error e) ∧
    (∀ docs p e, retriever q = .ok docs →
      promptTemplate { context := format_docs docs, question := q } = .ok p →
      llm p = .error e →
      criar_rag_chain retriever promptTemplate llm parseOutput q = .error e) ∧
    (∀ docs p r e, retriever q = .ok docs →
      promptTemplate { context := format_docs docs, question := q } = .ok p →
      llm p = .ok r → parseOutput r = .error e →
      criar_rag_chain retriever promptTemplate llm parseOutput q = .error e) ∧
    (∀ a, criar_rag_chain retriever promptTemplate llm parseOutput q = .ok a →
      ∃ docs p r, retriever q = .ok docs ∧
        promptTemplate { context := format_docs docs, question := q } = .ok p ∧
        llm p = .ok r ∧ parseOutput r = .ok a) := by
  refine ⟨?_, ?_, ?_, ?_, ?_⟩
  · intro e h
    simp [criar_rag_chain, chainInput, h]
  · intro docs e h1 h2
    simp [criar_rag_chain, chainInput, h1, h2]
  · intro docs p e h1 h2 h3
    simp [criar_rag_chain, chainInput, h1, h2, h3]
  · intro docs p r e h1 h2 h3 h4
    simp [criar_rag_chain, chainInput, h1, h2, h3, h4]
  · intro a h
    cases hr : retriever q with
    | error e =>
      rw [show criar_rag_chain retriever promptTemplate llm parseOutput q = .error e
        by simp [criar_rag_chain, chainInput, hr]] at h
      exact Except.noConfusion h
    | ok docs =>
      cases hp : promptTemplate { context := format_docs docs, question := q } with
      | error e =>
        rw [show criar_rag_chain retriever promptTemplate llm parseOutput q = .error e
          by simp [criar_rag_chain, chainInput, hr, hp]] at h
        exact Except.noConfusion h
      | ok p =>
        cases hl : llm p with
        | error e =>
          rw [show criar_rag_chain retriever promptTemplate llm parseOutput q = .error e
            by simp [criar_rag_chain, chainInput, hr, hp, hl]] at h
          exact Except.noConfusion h
        | ok r =>
          rw [show criar_rag_chain retriever promptTemplate llm parseOutput q =
              parseOutput r
            by simp [criar_rag_chain, chainInput, hr, hp, hl]] at h
          exact ⟨docs, p, r, rfl, hp, hl, h⟩

/-- A generation service that is down, used to instantiate the C3 theorem. -/
def llmFail : String → Except Err String :=
  fun _ => .error "GenerationServiceError: model unavailable"

/-- A prompt renderer that always succeeds, used to instantiate the C3
theorem. -/
def promptOk : PromptInput → Except Err String :=
  fun input => .ok (input.context ++ "\n" ++ input.question)

/-- An output decoder that always succeeds, used to instantiate the C3
theorem. -/
def parseOk : String → Except Err String := fun s => .ok s

theorem criar_rag_chain_aborts_on_failure_witness :
    emptyRetriever "pergunta" = .ok [] ∧
    promptOk { context := format_docs [], question := "pergunta" } = .ok "\npergunta" ∧
    llmFail "\npergunta" = .error "GenerationServiceError: model unavailable" ∧
    criar_rag_chain emptyRetriever promptOk llmFail parseOk "pergunta" =
      .error "GenerationServiceError: model unavailable" :=
  ⟨rfl, rfl, rfl,
    (criar_rag_chain_aborts_on_failure emptyRetriever promptOk llmFail parseOk
      "pergunta").2.2.1 [] "\npergunta"
      "GenerationServiceError: model unavailable" rfl rfl rfl⟩

/-- C7: retrieval is deterministic for a fixed index and a fixed query text:
two calls with equal indexes and equal query texts return identical ordered
(segment, score) sequences, and every returned sequence is ordered by
non-increasing similarity score (the insertion-order tie-break of the model
fully determines it). -/
theorem retrieve_deterministic (idx1 idx2 : VectorIndex) (embed : Embedder)
    (q1 q2 : String) (k : Nat) (h1 : idx1 = idx2) (h2 : q1 = q2) :
    retrieve idx1 embed q1 k = retrieve idx2 embed q2 k ∧
    ∀ res, retrieve idx1 embed q1 k = .ok res →
      List.Pairwise (fun a b : Document × Int => b.2 ≤ a.2) res := by
  subst h1
  subst h2
  refine ⟨rfl, ?_⟩
  intro res h
  unfold retrieve at h
  cases hq : embed q1 with
  | error e => rw [hq] at h; exact Except.noConfusion h
  | ok qv =>
    rw [hq] at h
    simp only [Except.ok.injEq] at h
    subst h
    have hsorted : List.Pairwise rankRel
        (List.insertionSort rankRel
          (idx1.entries.enum.map (fun p => (p.1, p.2.1, dot p.2.2 qv)))) :=
      List.sorted_insertionSort rankRel _
    have htake := List.Pairwise.sublist (List.take_sublist k _) hsorted
    rw [List.pairwise_map]
    refine List.Pairwise.imp ?_ htake
    intro a b hab
    simp only [rankRel, rankLE, Bool.or_eq_true, decide_eq_true_eq,
      Bool.and_eq_true, beq_iff_eq] at hab
    show b.2.2 ≤ a.2.2
    omega

/-- An index with two segments whose vectors tie on every query, used to
instantiate the C7 theorem. -/
def tieIndex : VectorIndex :=
  ⟨[({ pageContent := "a", source := "s" }, [1]),
    ({ pageContent := "b", source := "s" }, [1])]⟩

/-- An embedding service returning a constant vector, used to instantiate
the C7 theorem. -/
def constEmbed : Embedder := fun _ => .ok [2]

theorem retrieve_deterministic_witness :
    retrieve tieIndex constEmbed "consulta" 4 =
      retrieve tieIndex constEmbed "consulta" 4 ∧
    List.Pairwise (fun a b : Document × Int => b.2 ≤ a.2)
      [({ pageContent := "a", source := "s" }, 2),
       ({ pageContent := "b", source := "s" }, 2)] :=
  ⟨(retrieve_deterministic tieIndex tieIndex constEmbed "consulta" "consulta" 4
      rfl rfl).1,
   (retrieve_deterministic tieIndex tieIndex constEmbed "consulta" "consulta" 4
      rfl rfl).2
     [({ pageContent := "a", source := "s" }, 2),
      ({ pageContent := "b", source := "s" }, 2)] rfl⟩

/-- C9: when `OPENAI_API_KEY` is absent from the environment or empty,
`configurar_ambiente` raises the `ValueError`, and `main` stops with exactly
that error before any other work: its outcome is the caught configuration
error and is independent of every loading, embedding, prompting, generation
and decoding collaborator. -/
theorem configurar_ambiente_fatal_startup (env : Env)
    (h : env "OPENAI_API_KEY" = none ∨ env "OPENAI_API_KEY" = some "") :
    configurar_ambiente env =
      .error "OPENAI_API_KEY não encontrada nas variáveis de ambiente" ∧
    ∀ o1 o2 : Oracles, App.main env o1 = App.main env o2 ∧
      App.main env o1 =
        .errorCaught "OPENAI_API_KEY não encontrada nas variáveis de ambiente" := by
  have hcfg : configurar_ambiente env =
      .error "OPENAI_API_KEY não encontrada nas variáveis de ambiente" := by
    rcases h with h | h
    · simp [configurar_ambiente, h]
    · simp [configurar_ambiente, h]
  refine ⟨hcfg, ?_⟩
  intro o1 o2
  constructor
  · simp [App.main, hcfg]
  · simp [App.main, hcfg]

/-- An environment with no variables at all, used to instantiate the C9
theorem. -/
def envMissing : Env := fun _ => none

/-- A bundle of collaborators, used to instantiate the C9 theorem. -/
def trivialOracles : Oracles :=
  { fetch := fun _ => .error "net down"
    embed := fun _ => .ok []
    promptTemplate := fun _ => .ok ""
    llm := fun _ => .ok ""
    parseOutput := fun s => .ok s }

theorem configurar_ambiente_fatal_startup_witness :
    (envMissing "OPENAI_API_KEY" = none ∨ envMissing "OPENAI_API_KEY" = some "") ∧
    configurar_ambiente envMissing =
      .error "OPENAI_API_KEY não encontrada nas variáveis de ambiente" ∧
    App.main envMissing trivialOracles =
      .errorCaught "OPENAI_API_KEY não encontrada nas variáveis de ambiente" :=
  ⟨Or.inl rfl,
   (configurar_ambiente_fatal_startup envMissing (Or.inl rfl)).1,
   ((configurar_ambiente_fatal_startup envMissing (Or.inl rfl)).2
     trivialOracles trivialOracles).2⟩
